import Mathlib

/-!
Shallow embedding of the racing-backend leaderboard core
(src/main.py and src/schemas.py) and proofs of the specification's
testable properties.

The document store is modelled as explicit state (`Db`), handlers as
functions in state-passing style returning the HTTP-level result together
with the store after the request.  `Option Nat` models an optional
non-negative integer field, `none` meaning the field is absent from the
stored document (the case the code's `dict.get` default covers).
-/

namespace Racing

/-- An Entry document of the "entry" collection (src/schemas.py, class Entry).
`total_time_ms` and `best_lap_ms` are optional and non-negative (`ge=0`);
`position` is optional (`ge=1`) and only assigned at leaderboard read time. -/
structure Entry where
  race_id : String
  player_name : String
  vehicle_code : String
  total_time_ms : Option Nat := none
  best_lap_ms : Option Nat := none
  laps_completed : Nat := 0
  position : Option Nat := none
deriving Repr, DecidableEq

/-- The POST /races request body model (src/main.py, class RaceCreate).
The field `laps` is a plain `int` here: the endpoint model carries no range
constraint on it. -/
structure RaceCreate where
  map_code : String
  laps : Int
  allowed_vehicle_codes : List String := []
  created_by : Option String := none
deriving Repr, DecidableEq

/-- A Race document as inserted by POST /races (src/main.py, create_race):
the payload's fields plus the `status` field set at creation. -/
structure RaceDoc where
  map_code : String
  laps : Int
  allowed_vehicle_codes : List String
  created_by : Option String
  status : String
deriving Repr, DecidableEq

/-- The document store: the two collections the specified endpoints touch.
A race document is stored together with its store-assigned identifier. -/
structure Db where
  entry : List Entry
  race : List (String × RaceDoc)
deriving Repr, DecidableEq

/-- Errors surfaced by the handlers (src/main.py):
`HTTPException(500, "Database not configured")` and
`HTTPException(400, "Invalid race id")`. -/
inductive ApiError where
  | dbNotConfigured
  | invalidRaceId
deriving Repr, DecidableEq

/-- The HTTP status code each error is surfaced with. -/
def ApiError.httpStatus : ApiError → Nat
  | .dbNotConfigured => 500
  | .invalidRaceId => 400

/-- The response body of POST /races: exactly one string field `id`
(src/main.py line 120). -/
structure CreateRaceResponse where
  id : String
deriving Repr, DecidableEq

/-- A hexadecimal character. -/
def isHexChar (c : Char) : Bool :=
  c.isDigit || decide (97 ≤ c.toNat ∧ c.toNat ≤ 102) ||
    decide (65 ≤ c.toNat ∧ c.toNat ≤ 70)

/-- Validity of a bson ObjectId string (the external collaborator
`bson.ObjectId`, applied to the path parameter at src/main.py line 136):
a 24-character hexadecimal string. -/
def isValidObjectId (s : String) : Bool :=
  s.length == 24 && s.toList.all isHexChar

/-- The numeric sentinel `1e12` that src/main.py line 141 substitutes for a
missing field before comparing. -/
def missingSentinel : Nat := 1000000000000

/-- The sort key of an entry:
`(e.get("total_time_ms", 1e12), e.get("best_lap_ms", 1e12))`
from src/main.py line 141. -/
def sortKey (e : Entry) : Nat × Nat :=
  (e.total_time_ms.getD missingSentinel, e.best_lap_ms.getD missingSentinel)

/-- Python tuple comparison on the pair of key values: lexicographic. -/
def keyLe (p q : Nat × Nat) : Bool :=
  decide (p.1 < q.1) || (decide (p.1 = q.1) && decide (p.2 ≤ q.2))

/-- The comparator induced by the key function of src/main.py line 141. -/
def entryLe (a b : Entry) : Bool := keyLe (sortKey a) (sortKey b)

/-- Set `position` on the in-memory representation of an entry
(src/main.py line 144). -/
def setPos (e : Entry) (i : Nat) : Entry := { e with position := some i }

/-- Drop the `position` field; used to compare entries up to the position
assigned at read time. -/
def clearPos (e : Entry) : Entry := { e with position := none }

/-- `for idx, e in enumerate(entries, start=1): e["position"] = idx`
(src/main.py lines 143 and 144), with `start` made explicit. -/
def assignPositions : List Entry → Nat → List Entry
  | [], _ => []
  | e :: rest, i => setPos e i :: assignPositions rest (i + 1)

/-- The entries retrieved for a race, in retrieval order:
`db["entry"].find({"race_id": race_id})` (src/main.py line 139).  The filter
compares the stored plain-string `race_id` field against the raw caller
string. -/
def entriesFor (d : Db) (race_id : String) : List Entry :=
  d.entry.filter (fun e => e.race_id == race_id)

/-- The retrieved entries after the stable sort of src/main.py line 141
(Python `list.sort` is stable; `List.mergeSort` is the stable sort on
lists). -/
def rankedEntries (d : Db) (race_id : String) : List Entry :=
  (entriesFor d race_id).mergeSort entryLe

/-- GET /leaderboard (src/main.py, get_leaderboard), in state-passing form:
the second component is the document store after the request.  The handler
checks the store handle, parses the path parameter as an ObjectId (failure
maps to the 400 error), performs the single find of line 139, sorts, and
assigns positions on the in-memory copies.  No store write is issued. -/
def get_leaderboard (db : Option Db) (race_id : String) :
    Except ApiError (List Entry) × Option Db :=
  match db with
  | none => (.error .dbNotConfigured, none)
  | some d =>
    if isValidObjectId race_id then
      (.ok (assignPositions (rankedEntries d race_id) 1), some d)
    else
      (.error .invalidRaceId, some d)

/-- The race document built by create_race (src/main.py lines 117 and 118):
`payload.model_dump()` updated with `status` set to `"pending"`. -/
def raceDocOf (payload : RaceCreate) : RaceDoc :=
  { map_code := payload.map_code
    laps := payload.laps
    allowed_vehicle_codes := payload.allowed_vehicle_codes
    created_by := payload.created_by
    status := "pending" }

/-- POST /races (src/main.py, create_race), in state-passing form.  `newId`
models the store-assigned identifier `insert_one(race_doc).inserted_id`; the
insert appends the document to the race collection and the response body is
the object with the single string field `id`. -/
def create_race (db : Option Db) (payload : RaceCreate) (newId : String) :
    Except ApiError CreateRaceResponse × Option Db :=
  match db with
  | none => (.error .dbNotConfigured, none)
  | some d =>
    (.ok { id := newId },
      some { d with race := d.race ++ [(newId, raceDocOf payload)] })

/-- The laps constraint declared on the Race schema
(src/schemas.py line 43: `Field(..., ge=1, le=100)`).  The POST /races
endpoint validates its body against `RaceCreate`, which does not carry this
constraint. -/
def raceLapsValid (laps : Int) : Bool := decide (1 ≤ laps ∧ laps ≤ 100)

/-- The specification's order on optional values, strict part: an absent
value is larger than any present value (+infinity). -/
def ltInf : Option Nat → Option Nat → Bool
  | none, _ => false
  | some _, none => true
  | some x, some y => decide (x < y)

/-- The specification's order on optional values, non-strict part: an absent
value is larger than any present value (+infinity). -/
def leInf : Option Nat → Option Nat → Bool
  | _, none => true
  | none, some _ => false
  | some x, some y => decide (x ≤ y)

/-- The composite ascending key the specification describes (section 4.1,
claim C1): lexicographic on `(total_time_ms, best_lap_ms)` with an absent
value treated as larger than any present value. -/
def specEntryLe (a b : Entry) : Bool :=
  ltInf a.total_time_ms b.total_time_ms ||
    (a.total_time_ms == b.total_time_ms && leInf a.best_lap_ms b.best_lap_ms)

/-! Concrete fixtures used by witnesses: the specification's section 8
example scenario (entries A, B, C, D) and a well-formed race identifier. -/

/-- A well-formed store identifier: 24 hex characters. -/
def ridA : String := "aaaaaaaaaaaaaaaaaaaaaaaa"

/-- Another well-formed store identifier, distinct from `ridA`. -/
def ridB : String := "bbbbbbbbbbbbbbbbbbbbbbbb"

/-- Spec section 8 example entry A: total 120000, best 30000. -/
def exA : Entry :=
  { race_id := ridA, player_name := "A", vehicle_code := "v",
    total_time_ms := some 120000, best_lap_ms := some 30000 }

/-- Spec section 8 example entry B: no total, best 29000. -/
def exB : Entry :=
  { race_id := ridA, player_name := "B", vehicle_code := "v",
    best_lap_ms := some 29000 }

/-- Spec section 8 example entry C: total 120000, best 29500. -/
def exC : Entry :=
  { race_id := ridA, player_name := "C", vehicle_code := "v",
    total_time_ms := some 120000, best_lap_ms := some 29500 }

/-- Spec section 8 example entry D: no total, no best. -/
def exD : Entry :=
  { race_id := ridA, player_name := "D", vehicle_code := "v" }

/-- A store holding the four example entries in retrieval order A, B, C, D. -/
def exDb : Db := { entry := [exA, exB, exC, exD], race := [] }

/-! Helper lemmas about the comparator and position assignment. -/

/-- Unfolding of the tuple comparison. -/
theorem keyLe_iff (p q : Nat × Nat) :
    keyLe p q = true ↔ p.1 < q.1 ∨ (p.1 = q.1 ∧ p.2 ≤ q.2) := by
  simp [keyLe]

/-- The tuple comparison is reflexive. -/
theorem keyLe_refl (p : Nat × Nat) : keyLe p p = true := by
  simp [keyLe]

/-- The code's comparator is transitive. -/
theorem entryLe_trans : ∀ (a b c : Entry), entryLe a b → entryLe b c → entryLe a c := by
  intro a b c hab hbc
  simp only [entryLe, keyLe_iff] at *
  omega

/-- The code's comparator is total. -/
theorem entryLe_total : ∀ (a b : Entry), entryLe a b || entryLe b a := by
  intro a b
  simp only [entryLe, Bool.or_eq_true, keyLe_iff]
  omega

/-- Positions do not change the sort keys or identification fields. -/
theorem setPos_fields (e : Entry) (i : Nat) :
    (setPos e i).race_id = e.race_id ∧ (setPos e i).total_time_ms = e.total_time_ms ∧
      (setPos e i).best_lap_ms = e.best_lap_ms ∧ (setPos e i).position = some i :=
  ⟨rfl, rfl, rfl, rfl⟩

/-- Every element of `assignPositions l k` is some element of `l` with a
position attached. -/
theorem mem_assignPositions :
    ∀ {l : List Entry} {k : Nat} {b : Entry}, b ∈ assignPositions l k →
      ∃ a, a ∈ l ∧ ∃ i, b = setPos a i := by
  intro l
  induction l with
  | nil => intro k b h; simp [assignPositions] at h
  | cons e rest ih =>
    intro k b h
    simp only [assignPositions, List.mem_cons] at h
    rcases h with h | h
    · exact ⟨e, List.mem_cons_self e rest, k, h⟩
    · rcases ih h with ⟨a, ha, i, rfl⟩
      exact ⟨a, List.mem_cons_of_mem _ ha, i, rfl⟩

/-- Position assignment preserves any pairwise relation that ignores the
position field. -/
theorem pairwise_assignPositions {R : Entry → Entry → Prop}
    (hR : ∀ a b i j, R a b → R (setPos a i) (setPos b j)) :
    ∀ (l : List Entry) (k : Nat), l.Pairwise R → (assignPositions l k).Pairwise R := by
  intro l
  induction l with
  | nil => intro k _; exact List.Pairwise.nil
  | cons e rest ih =>
    intro k h
    rcases List.pairwise_cons.mp h with ⟨he, hrest⟩
    refine List.pairwise_cons.mpr ⟨?_, ih (k + 1) hrest⟩
    intro b hb
    rcases mem_assignPositions hb with ⟨a, ha, i, rfl⟩
    exact hR e a k i (he a ha)

/-- Position assignment does not change the list length. -/
theorem length_assignPositions :
    ∀ (l : List Entry) (k : Nat), (assignPositions l k).length = l.length
  | [], _ => rfl
  | e :: rest, k => by
    simp [assignPositions, length_assignPositions rest (k + 1)]

/-- Up to the position field, position assignment returns the input list. -/
theorem map_clearPos_assignPositions :
    ∀ (l : List Entry) (k : Nat), (assignPositions l k).map clearPos = l.map clearPos
  | [], _ => rfl
  | e :: rest, k => by
    simp only [assignPositions, List.map_cons, map_clearPos_assignPositions rest (k + 1)]
    rfl

/-- The positions attached by `assignPositions l k` are `k, k+1, ...` in list
order. -/
theorem map_position_assignPositions :
    ∀ (l : List Entry) (k : Nat),
      (assignPositions l k).map (fun e => e.position) = (List.range' k l.length).map some
  | [], _ => rfl
  | e :: rest, k => by
    simp only [assignPositions, List.map_cons, List.length_cons, List.range'_succ,
      map_position_assignPositions rest (k + 1)]
    rfl

/-- Inversion of a successful leaderboard call: the identifier validated and
the result is the sorted, position-assigned entry list. -/
theorem get_leaderboard_ok {d : Db} {rid : String} {l : List Entry}
    (h : (get_leaderboard (some d) rid).1 = Except.ok l) :
    isValidObjectId rid = true ∧ l = assignPositions (rankedEntries d rid) 1 := by
  cases hv : isValidObjectId rid with
  | false => simp [get_leaderboard, hv] at h
  | true =>
    simp only [get_leaderboard, hv, if_true, Except.ok.injEq] at h
    exact ⟨rfl, h.symm⟩

/-- Members of the ranked list are stored entries whose race_id equals the
caller string. -/
theorem mem_rankedEntries {d : Db} {rid : String} {a : Entry}
    (h : a ∈ rankedEntries d rid) : a ∈ d.entry ∧ a.race_id = rid := by
  rw [rankedEntries, List.mem_mergeSort, entriesFor, List.mem_filter] at h
  exact ⟨h.1, by simpa using h.2⟩

/-- Every entry of a successful leaderboard response carries the caller's
race identifier. -/
theorem mem_output_race_id {d : Db} {rid : String} {l : List Entry} {e : Entry}
    (h : (get_leaderboard (some d) rid).1 = Except.ok l) (he : e ∈ l) :
    e.race_id = rid := by
  obtain ⟨-, rfl⟩ := get_leaderboard_ok h
  rcases mem_assignPositions he with ⟨a, ha, i, rfl⟩
  exact (mem_rankedEntries ha).2

/-- When all present measurements are below the sentinel, the code's
comparator implies the specification's +infinity comparator. -/
theorem specEntryLe_of_entryLe {a b : Entry}
    (ha1 : ∀ t, a.total_time_ms = some t → t < missingSentinel)
    (ha2 : ∀ t, a.best_lap_ms = some t → t < missingSentinel)
    (hb1 : ∀ t, b.total_time_ms = some t → t < missingSentinel)
    (hb2 : ∀ t, b.best_lap_ms = some t → t < missingSentinel)
    (h : entryLe a b = true) : specEntryLe a b = true := by
  rcases hat : a.total_time_ms with _ | x <;> rcases hbt : b.total_time_ms with _ | y <;>
    rcases hal : a.best_lap_ms with _ | u <;> rcases hbv : b.best_lap_ms with _ | v <;>
    simp_all [entryLe, sortKey, keyLe, specEntryLe, ltInf, leInf, missingSentinel] <;>
    omega

/-- A decidable bound on an optional value implies the bound on every present
value. -/
theorem bound_of_getD {o : Option Nat} (h : o.getD 0 < missingSentinel) :
    ∀ t, o = some t → t < missingSentinel := by
  intro t ht
  rw [ht] at h
  simpa using h

/-- Evaluation of the leaderboard on the specification's section 8 example
store: the output order is C, A, B, D with positions 1 to 4, as the spec's
example scenario states. -/
theorem exDb_leaderboard_eval :
    (get_leaderboard (some exDb) ridA).1 =
      Except.ok [setPos exC 1, setPos exA 2, setPos exB 3, setPos exD 4] := by
  have hv : isValidObjectId "aaaaaaaaaaaaaaaaaaaaaaaa" = true := by decide
  simp [get_leaderboard, hv, rankedEntries, entriesFor, exDb, exA, exB, exC, exD, ridA,
    List.mergeSort, List.splitInTwo, List.splitAt, List.splitAt.go, List.merge,
    entryLe, sortKey, keyLe, missingSentinel, assignPositions, setPos]

/-! Claim C1.  The code substitutes the finite sentinel `1e12` for an absent
value (src/main.py line 141), so an absent value is NOT larger than every
present value: a present measurement of at least `10^12` ms sorts at or after
the sentinel.  The claim as stated is refuted below; the amended claim,
restricted to stores whose present measurements are below the sentinel,
holds. -/

/-- Entry with a recorded total time of 2·10^12 ms, twice the sentinel. -/
def cexBig : Entry :=
  { race_id := ridA, player_name := "big", vehicle_code := "v",
    total_time_ms := some 2000000000000 }

/-- Entry with no recorded times. -/
def cexNoTime : Entry :=
  { race_id := ridA, player_name := "slow", vehicle_code := "v" }

/-- Store refuting claim C1 as stated. -/
def cexDb : Db := { entry := [cexBig, cexNoTime], race := [] }

/-- Claim C1, counterexample: on a store holding an entry with recorded
total_time_ms = 2·10^12 and an entry with no recorded times, the returned
sequence places the entry with no recorded total_time_ms first, above the
entry with a recorded total_time_ms, and is not sorted by the composite key
that treats an absent value as larger than any present value. -/
theorem C1_counterexample :
    (get_leaderboard (some cexDb) ridA).1 =
      Except.ok [setPos cexNoTime 1, setPos cexBig 2] ∧
    specEntryLe (setPos cexNoTime 1) (setPos cexBig 2) = false ∧
    ¬ List.Pairwise (fun a b => specEntryLe a b = true)
        [setPos cexNoTime 1, setPos cexBig 2] ∧
    (setPos cexNoTime 1).total_time_ms = none ∧
    (setPos cexBig 2).total_time_ms = some 2000000000000 := by
  refine ⟨?_, by decide, ?_, rfl, rfl⟩
  · have hv : isValidObjectId "aaaaaaaaaaaaaaaaaaaaaaaa" = true := by decide
    simp [get_leaderboard, hv, rankedEntries, entriesFor, cexDb, cexBig, cexNoTime, ridA,
      List.mergeSort, List.splitInTwo, List.splitAt, List.splitAt.go, List.merge,
      entryLe, sortKey, keyLe, missingSentinel, assignPositions, setPos]
  · intro h
    have h2 := (List.pairwise_cons.mp h).1 (setPos cexBig 2) (List.mem_cons_self _ _)
    revert h2
    decide

/-- Claim C1 (amended): for every store in which every recorded total_time_ms
and best_lap_ms is below 10^12 (the sentinel the code substitutes for an
absent value), the sequence returned by the leaderboard ranking is sorted
non-decreasing by the composite ascending key (total_time_ms, best_lap_ms)
with an absent value in either field treated as larger than any present
value, so entries with no recorded total_time_ms rank below entries with a
recorded one, and among entries both missing total_time_ms one with a
recorded best_lap_ms ranks above one without. -/
theorem C1_sorted_by_spec_key (d : Db) (rid : String) (l : List Entry)
    (hb : ∀ e ∈ d.entry, e.total_time_ms.getD 0 < missingSentinel ∧
      e.best_lap_ms.getD 0 < missingSentinel)
    (h : (get_leaderboard (some d) rid).1 = Except.ok l) :
    l.Pairwise (fun a b => specEntryLe a b = true) := by
  obtain ⟨hv, rfl⟩ := get_leaderboard_ok h
  apply pairwise_assignPositions
  · intro a b i j hab
    exact hab
  · have hs : (rankedEntries d rid).Pairwise (fun a b => entryLe a b = true) :=
      List.sorted_mergeSort entryLe_trans entryLe_total (entriesFor d rid)
    refine hs.imp_of_mem ?_
    intro a b ha hbm hab
    have hba := hb a (mem_rankedEntries ha).1
    have hbb := hb b (mem_rankedEntries hbm).1
    exact specEntryLe_of_entryLe (bound_of_getD hba.1) (bound_of_getD hba.2)
      (bound_of_getD hbb.1) (bound_of_getD hbb.2) hab

/-- Claim C1 witness: the amended theorem applied to the spec's section 8
example store, whose measurements are all below the sentinel. -/
theorem C1_witness :
    (∀ e ∈ exDb.entry, e.total_time_ms.getD 0 < missingSentinel ∧
      e.best_lap_ms.getD 0 < missingSentinel) ∧
    List.Pairwise (fun a b => specEntryLe a b = true)
      [setPos exC 1, setPos exA 2, setPos exB 3, setPos exD 4] :=
  ⟨by decide, C1_sorted_by_spec_key exDb ridA _ (by decide) exDb_leaderboard_eval⟩

/-- Claim C2: the position values attached to the returned sequence are
exactly 1..n in output order, with no gaps and no repeats (the positions are
the 1-based indices of the sorted sequence), and n is the number of entries
retrieved for the race; ties still receive distinct consecutive positions
because every index of the output is assigned. -/
theorem C2_positions (d : Db) (rid : String) (l : List Entry)
    (h : (get_leaderboard (some d) rid).1 = Except.ok l) :
    l.map (fun e => e.position) = (List.range' 1 l.length).map some ∧
    l.length = (entriesFor d rid).length := by
  obtain ⟨hv, rfl⟩ := get_leaderboard_ok h
  refine ⟨?_, ?_⟩
  · rw [length_assignPositions]
    exact map_position_assignPositions _ 1
  · rw [length_assignPositions, rankedEntries, List.length_mergeSort]

/-- Claim C2 witness: on the spec's example store the positions are
1, 2, 3, 4. -/
theorem C2_witness :
    [setPos exC 1, setPos exA 2, setPos exB 3, setPos exD 4].map (fun e => e.position) =
      (List.range' 1 [setPos exC 1, setPos exA 2, setPos exB 3,
        setPos exD 4].length).map some ∧
    [setPos exC 1, setPos exA 2, setPos exB 3, setPos exD 4].length =
      (entriesFor exDb ridA).length :=
  C2_positions exDb ridA _ exDb_leaderboard_eval

/-- A POST /races body with laps = 0, outside the documented range 1..100. -/
def c3payload : RaceCreate := { map_code := "downtown_dash", laps := 0 }

/-- An empty store. -/
def emptyDb : Db := { entry := [], race := [] }

/-- Claim C3 names a code bug: the endpoint validates its body against
`RaceCreate` (src/main.py lines 64 to 68), which carries no range constraint
on `laps`, although the repository's own Race schema declares
`Field(..., ge=1, le=100)` (src/schemas.py line 43).  A body with laps = 0 is
accepted: the handler inserts the race document and returns its id — no
ValidationError, no rejection before store access. -/
theorem C3_laps_not_validated :
    (create_race (some emptyDb) c3payload ridB).1 = Except.ok { id := ridB } ∧
    (create_race (some emptyDb) c3payload ridB).2 =
      some { entry := [], race := [(ridB, raceDocOf c3payload)] } ∧
    (raceDocOf c3payload).laps = 0 ∧
    raceLapsValid (raceDocOf c3payload).laps = false :=
  ⟨rfl, rfl, rfl, by decide⟩

/-- Claim C4: with the store configured, a race_id that is not a well-formed
store identifier is rejected with the InvalidIdentifier error carrying HTTP
status 400, and the response does not depend on the store contents (the
rejection happens before any store access); every well-formed race_id yields
a successful response, never that error. -/
theorem C4_identifier_validation (d d2 : Db) (rid : String) :
    (isValidObjectId rid = false →
      (get_leaderboard (some d) rid).1 = Except.error ApiError.invalidRaceId ∧
      (get_leaderboard (some d) rid).1 = (get_leaderboard (some d2) rid).1 ∧
      ApiError.invalidRaceId.httpStatus = 400) ∧
    (isValidObjectId rid = true →
      (get_leaderboard (some d) rid).1 =
        Except.ok (assignPositions (rankedEntries d rid) 1)) := by
  constructor
  · intro hv
    refine ⟨?_, ?_, rfl⟩ <;> simp [get_leaderboard, hv]
  · intro hv
    simp [get_leaderboard, hv]

/-- Claim C4 witness: a malformed identifier is rejected with the 400 error
on two different stores alike; a well-formed identifier succeeds. -/
theorem C4_witness :
    ((get_leaderboard (some exDb) "not-an-objectid").1 =
        Except.error ApiError.invalidRaceId ∧
      (get_leaderboard (some exDb) "not-an-objectid").1 =
        (get_leaderboard (some cexDb) "not-an-objectid").1 ∧
      ApiError.invalidRaceId.httpStatus = 400) ∧
    (get_leaderboard (some exDb) ridA).1 =
      Except.ok (assignPositions (rankedEntries exDb ridA) 1) :=
  ⟨(C4_identifier_validation exDb cexDb "not-an-objectid").1 (by decide),
    (C4_identifier_validation exDb cexDb ridA).2 (by decide)⟩

/-- Tied entry one: total 90000, best 28000. -/
def tieP1 : Entry :=
  { race_id := ridA, player_name := "p1", vehicle_code := "kart",
    total_time_ms := some 90000, best_lap_ms := some 28000 }

/-- Tied entry two: same keys as `tieP1`, every other field different. -/
def tieP2 : Entry :=
  { race_id := ridA, player_name := "p2", vehicle_code := "truck",
    total_time_ms := some 90000, best_lap_ms := some 28000, laps_completed := 3 }

/-- An entry with the same keys as the tied pair but different values in
every other field. -/
def tieOther : Entry :=
  { race_id := ridB, player_name := "other", vehicle_code := "bike",
    total_time_ms := some 90000, best_lap_ms := some 28000,
    laps_completed := 7, position := some 9 }

/-- Store holding the tied pair in retrieval order p1, p2. -/
def tieDb : Db := { entry := [tieP1, tieP2], race := [] }

/-- Claim C5: two entries that tie exactly on both sort keys keep their
original retrieval order in the output (up to the freshly assigned position
field), and the comparator's verdict is a function of the two key fields
alone, so no other field influences the ordering. -/
theorem C5_stable_ties (d : Db) (rid : String) (l : List Entry) (a b a2 b2 : Entry)
    (ht : a.total_time_ms = b.total_time_ms)
    (hbl : a.best_lap_ms = b.best_lap_ms)
    (hsub : List.Sublist [a, b] (entriesFor d rid))
    (h : (get_leaderboard (some d) rid).1 = Except.ok l)
    (h1 : a2.total_time_ms = a.total_time_ms) (h2 : a2.best_lap_ms = a.best_lap_ms)
    (h3 : b2.total_time_ms = b.total_time_ms) (h4 : b2.best_lap_ms = b.best_lap_ms) :
    List.Sublist [clearPos a, clearPos b] (l.map clearPos) ∧
    entryLe a2 b2 = entryLe a b := by
  obtain ⟨hv, rfl⟩ := get_leaderboard_ok h
  constructor
  · have hab : entryLe a b = true := by
      simp only [entryLe, sortKey, ht, hbl]
      exact keyLe_refl _
    have hsub2 := List.pair_sublist_mergeSort entryLe_trans entryLe_total hab hsub
    rw [map_clearPos_assignPositions]
    exact hsub2.map clearPos
  · simp only [entryLe, sortKey, h1, h2, h3, h4]

/-- Claim C5 witness: the tied pair p1, p2 appears in retrieval order in the
output, and an entry differing from p1 in every non-key field compares
identically. -/
theorem C5_witness :
    List.Sublist [clearPos tieP1, clearPos tieP2]
      (([setPos tieP1 1, setPos tieP2 2]).map clearPos) ∧
    entryLe tieOther tieOther = entryLe tieP1 tieP2 :=
  C5_stable_ties tieDb ridA _ tieP1 tieP2 tieOther tieOther rfl rfl
    (by
      have he : entriesFor tieDb ridA = [tieP1, tieP2] := rfl
      rw [he])
    (by
      have hv : isValidObjectId "aaaaaaaaaaaaaaaaaaaaaaaa" = true := by decide
      simp [get_leaderboard, hv, rankedEntries, entriesFor, tieDb, tieP1, tieP2, ridA,
        List.mergeSort, List.splitInTwo, List.splitAt, List.splitAt.go, List.merge,
        entryLe, sortKey, keyLe, missingSentinel, assignPositions, setPos])
    rfl rfl rfl rfl

/-- A race document unrelated to the queried identifier. -/
def someRace : RaceDoc :=
  { map_code := "downtown_dash", laps := 3, allowed_vehicle_codes := [],
    created_by := none, status := "pending" }

/-- Claim C6: for a well-formed race identifier with zero matching entries
the call returns an empty sequence and does not fail, whatever the race
collection holds — in particular also when no race with that identifier
exists, since the handler never reads the race collection. -/
theorem C6_empty_ok (d : Db) (rc : List (String × RaceDoc)) (rid : String)
    (hv : isValidObjectId rid = true)
    (he : entriesFor d rid = []) :
    (get_leaderboard (some d) rid).1 = Except.ok [] ∧
    (get_leaderboard (some { entry := d.entry, race := rc }) rid).1 =
      Except.ok [] := by
  have he2 : entriesFor { entry := d.entry, race := rc } rid = [] := he
  constructor <;> simp [get_leaderboard, hv, rankedEntries, he, he2, assignPositions]

/-- Claim C6 witness: a well-formed identifier matching no entries returns
the empty list, both with an empty race collection (the race does not exist)
and with a non-empty one. -/
theorem C6_witness :
    (get_leaderboard (some { entry := exDb.entry, race := [] }) ridB).1 =
      Except.ok [] ∧
    (get_leaderboard
      (some { entry := exDb.entry, race := [(ridA, someRace)] }) ridB).1 =
      Except.ok [] :=
  C6_empty_ok { entry := exDb.entry, race := [] } [(ridA, someRace)] ridB
    (by decide) rfl

/-- Claim C7: every race created via POST /races is stored with status
"pending" whatever the request body holds, the store gains exactly the one
document built from the payload, and the response is exactly the object with
the new identifier as its string id field; the body's optional fields
default to the empty list and to none. -/
theorem C7_create_race (d : Db) (payload : RaceCreate) (newId : String)
    (s : String) (n : Int) :
    (create_race (some d) payload newId).1 = Except.ok { id := newId } ∧
    (create_race (some d) payload newId).2 =
      some { entry := d.entry, race := d.race ++ [(newId, raceDocOf payload)] } ∧
    (raceDocOf payload).status = "pending" ∧
    (raceDocOf payload).map_code = payload.map_code ∧
    (raceDocOf payload).laps = payload.laps ∧
    (raceDocOf payload).allowed_vehicle_codes = payload.allowed_vehicle_codes ∧
    (raceDocOf payload).created_by = payload.created_by ∧
    ({ map_code := s, laps := n } : RaceCreate).allowed_vehicle_codes = [] ∧
    ({ map_code := s, laps := n } : RaceCreate).created_by = none :=
  ⟨rfl, rfl, rfl, rfl, rfl, rfl, rfl, rfl, rfl⟩

/-- Claim C8: the leaderboard mutates nothing: the document store after any
invocation — success or error — is the store passed in; positions exist only
on the returned in-memory entries, never in the store. -/
theorem C8_no_mutation (db : Option Db) (rid : String) :
    (get_leaderboard db rid).2 = db := by
  cases db with
  | none => rfl
  | some d => cases hv : isValidObjectId rid <;> simp [get_leaderboard, hv]

/-- Claim C9: the ranked output is, up to the freshly
assigned position field, a permutation of exactly the stored entries whose
plain-string race_id equals the caller's string, and every returned entry
carries that string. -/
theorem C9_string_filter (d : Db) (rid : String) (l : List Entry) (e : Entry)
    (h : (get_leaderboard (some d) rid).1 = Except.ok l)
    (he : e ∈ l) :
    (l.map clearPos).Perm
      ((d.entry.filter (fun x => x.race_id == rid)).map clearPos) ∧
    e.race_id = rid := by
  refine ⟨?_, mem_output_race_id h he⟩
  obtain ⟨hv, rfl⟩ := get_leaderboard_ok h
  rw [map_clearPos_assignPositions]
  exact (List.mergeSort_perm (entriesFor d rid) entryLe).map clearPos

/-- Claim C9 witness on the spec's example store. -/
theorem C9_witness :
    (([setPos exC 1, setPos exA 2, setPos exB 3, setPos exD 4].map clearPos).Perm
      ((exDb.entry.filter (fun x => x.race_id == ridA)).map clearPos)) ∧
    (setPos exC 1).race_id = ridA :=
  C9_string_filter exDb ridA _ (setPos exC 1) exDb_leaderboard_eval
    (List.mem_cons_self _ _)

/-- A stored entry whose race_id is not a well-formed store identifier. -/
def badEntry : Entry :=
  { race_id := "oops", player_name := "ghost", vehicle_code := "v" }

/-- Store mixing the unreachable entry with a well-formed one. -/
def mixDb : Db := { entry := [badEntry, exA], race := [] }

/-- Claim C10: a stored entry whose race_id string is not a syntactically
valid store identifier can never be returned: no entry of any successful
leaderboard response carries its race_id, and a call supplying exactly that
race_id string fails with the 400 InvalidIdentifier error during
validation. -/
theorem C10_invalid_race_id_unreachable (d : Db) (rid : String) (l : List Entry)
    (e x : Entry)
    (hinv : isValidObjectId e.race_id = false)
    (h : (get_leaderboard (some d) rid).1 = Except.ok l)
    (hx : x ∈ l) :
    x.race_id ≠ e.race_id ∧
    (get_leaderboard (some d) e.race_id).1 =
      Except.error ApiError.invalidRaceId := by
  obtain ⟨hv, -⟩ := get_leaderboard_ok h
  constructor
  · intro hcontra
    have hval : isValidObjectId e.race_id = true := by
      rw [← hcontra, mem_output_race_id h hx]
      exact hv
    rw [hval] at hinv
    exact absurd hinv (by decide)
  · simp [get_leaderboard, hinv]

/-- Claim C10 witness: the stored entry with race_id "oops" is not the one
returned for a well-formed query, and querying "oops" itself is rejected. -/
theorem C10_witness :
    (setPos exA 1).race_id ≠ badEntry.race_id ∧
    (get_leaderboard (some mixDb) badEntry.race_id).1 =
      Except.error ApiError.invalidRaceId :=
  C10_invalid_race_id_unreachable mixDb ridA [setPos exA 1] badEntry (setPos exA 1)
    (by decide)
    (by
      have hv : isValidObjectId "aaaaaaaaaaaaaaaaaaaaaaaa" = true := by decide
      simp [get_leaderboard, hv, rankedEntries, entriesFor, mixDb, badEntry, exA, ridA,
        List.mergeSort, List.splitInTwo, List.splitAt, List.splitAt.go, List.merge,
        entryLe, sortKey, keyLe, missingSentinel, assignPositions, setPos])
    (List.mem_cons_self _ _)

end Racing
